import Mathlib

/-!
Verification of the `imagenet_candidate_training` repository.

Part 1 embeds `code_for_clustering_npz_files.py`: the global-index
resolution cascade (lines 10-27) and the batching/flush loop
(lines 8, 29-43).

Part 2 embeds the pieces of `train.py` the claims are about:
the optimizer selection chain, the `accuracy` result computation,
the meter accumulation in `validate`, the configuration precedence
of `_parse_args`, the checkpoint dictionary and resume branch, and
the epoch loop of `main_worker`.

`AverageMeter` and `save_checkpoint` live in `train_utils`, which is
imported by `train.py` but absent from the repository sources; those
two are modelled from the spec (their doc comments say so).
-/

namespace ImagenetCandidate

/-! ## Part 1: `code_for_clustering_npz_files.py` -/

/-- Embeds the branch cascade of lines 10-27 of
`code_for_clustering_npz_files.py`, which resolves a global shuffled
index `cur_idx` against `npz_size_list` to a pair
(index of `cur_npz_file` in `npz_list`, `cur_npz_idx`).
`none` means no branch assigned anything, in which case the Python
loop body proceeds with stale values of `cur_npz_file` / `cur_npz_idx`
(a `NameError` on the very first iteration). -/
def npz_resolve (npz_size_list : List ℤ) (cur_idx : ℤ) : Option (ℕ × ℤ) :=
  if cur_idx < npz_size_list.headI - 1 then
    some (0, cur_idx)
  else if cur_idx > npz_size_list.dropLast.sum - 1 then
    some (npz_size_list.length - 1, cur_idx - npz_size_list.dropLast.sum)
  else
    ((List.range npz_size_list.length).drop 1).findSome? (fun i =>
      let size_1 : ℤ := (npz_size_list.take (i - 1)).sum - 1
      let size_2 : ℤ := size_1 + npz_size_list.getD i 0
      if size_1 < cur_idx ∧ cur_idx < size_2 then
        some (i, cur_idx - (size_1 + 1))
      else
        none)

/-- Formalises the CLAIM's description of the resolution step (the
refinement target, written from the spec's words, not from the source):
the unique archive `j` with `sum(npz_size_list[:j]) <= g <
sum(npz_size_list[:j+1])`, with local offset `g - sum(npz_size_list[:j])`. -/
def spec_npz_resolve (npz_size_list : List ℤ) (g : ℤ) : Option (ℕ × ℤ) :=
  (List.range npz_size_list.length).findSome? (fun j =>
    if (npz_size_list.take j).sum ≤ g ∧ g < (npz_size_list.take (j + 1)).sum then
      some (j, g - (npz_size_list.take j).sum)
    else
      none)

/-- Line 7 of `code_for_clustering_npz_files.py`: `save_lim = 2000`. -/
def save_lim : ℕ := 2000

/-- State carried across iterations of the loop at lines 8-43:
the pending image and label buffers, the next archive number
`save_idx`, and the archives already written by `np.savez`
(as `(save_idx, X_train, y_train)` triples, in write order). -/
structure ClusterState (α β : Type) where
  im_arr : List α
  lbl_arr : List β
  save_idx : ℕ
  outputs : List (ℕ × List α × List β)

/-- Initial state (lines 4-6): empty buffers, `save_idx = 1`, nothing written. -/
def cluster_init {α β : Type} : ClusterState α β := ⟨[], [], 1, []⟩

/-- One iteration of the loop body (lines 29-43) at batch limit `lim`:
append one image and one label, then, if the buffer has reached `lim`
(`len(im_arr) >= save_lim`), write `candidate_batch_<save_idx>.npz`,
bump `save_idx` and clear the buffers. -/
def cluster_step {α β : Type} (lim : ℕ) (s : ClusterState α β) (it : α × β) :
    ClusterState α β :=
  let im' := s.im_arr ++ [it.1]
  let lbl' := s.lbl_arr ++ [it.2]
  if lim ≤ im'.length then
    ⟨[], [], s.save_idx + 1, s.outputs ++ [(s.save_idx, im', lbl')]⟩
  else
    ⟨im', lbl', s.save_idx, s.outputs⟩

/-- The whole loop over `rand_idx`: `items` is the list of
(image, label) pairs collected at lines 29-30, one per sampled index. -/
def cluster_run {α β : Type} (lim : ℕ) (items : List (α × β)) : ClusterState α β :=
  items.foldl (cluster_step lim) cluster_init

/-- Invariant of the batching loop after processing `n` items. -/
def cluster_inv {α β : Type} (lim n : ℕ) (s : ClusterState α β) : Prop :=
  s.im_arr.length < lim ∧
  s.lbl_arr.length = s.im_arr.length ∧
  n = lim * s.outputs.length + s.im_arr.length ∧
  s.save_idx = s.outputs.length + 1 ∧
  s.outputs.map Prod.fst = List.range' 1 s.outputs.length ∧
  (∀ o ∈ s.outputs, o.2.1.length = lim ∧ o.2.2.length = lim)

theorem cluster_step_eq_flush {α β : Type} {lim : ℕ} {s : ClusterState α β}
    {it : α × β} (hfl : lim ≤ s.im_arr.length + 1) :
    cluster_step lim s it =
      ⟨[], [], s.save_idx + 1,
        s.outputs ++ [(s.save_idx, s.im_arr ++ [it.1], s.lbl_arr ++ [it.2])]⟩ := by
  unfold cluster_step
  rw [if_pos]
  simpa using hfl

theorem cluster_step_eq_keep {α β : Type} {lim : ℕ} {s : ClusterState α β}
    {it : α × β} (hfl : ¬ lim ≤ s.im_arr.length + 1) :
    cluster_step lim s it =
      ⟨s.im_arr ++ [it.1], s.lbl_arr ++ [it.2], s.save_idx, s.outputs⟩ := by
  unfold cluster_step
  rw [if_neg]
  simpa using hfl

theorem cluster_step_inv {α β : Type} {lim n : ℕ} {s : ClusterState α β}
    (it : α × β) (h : cluster_inv lim n s) :
    cluster_inv lim (n + 1) (cluster_step lim s it) := by
  obtain ⟨h1, h2, h3, h4, h5, h6⟩ := h
  by_cases hfl : lim ≤ s.im_arr.length + 1
  · have hlen : s.im_arr.length + 1 = lim := le_antisymm h1 hfl
    rw [cluster_step_eq_flush hfl]
    refine ⟨?_, rfl, ?_, ?_, ?_, ?_⟩
    · dsimp only
      simp only [List.length_nil]
      omega
    · dsimp only
      simp only [List.length_nil, List.length_append, List.length_singleton,
        Nat.add_zero]
      calc n + 1 = lim * s.outputs.length + lim := by omega
        _ = lim * (s.outputs.length + 1) := by ring
    · dsimp only
      simp only [List.length_append, List.length_singleton]
      omega
    · dsimp only
      rw [List.map_append, h5, List.length_append]
      simp only [List.map_cons, List.map_nil, List.length_singleton, h4]
      rw [List.range'_concat]
      simp [Nat.add_comm]
    · dsimp only
      intro o ho
      rcases List.mem_append.mp ho with ho | ho
      · exact h6 o ho
      · simp only [List.mem_singleton] at ho
        subst ho
        refine ⟨?_, ?_⟩
        · simpa using hlen
        · simp only [List.length_append, List.length_singleton, h2]
          omega
  · rw [cluster_step_eq_keep hfl]
    refine ⟨?_, ?_, ?_, h4, h5, h6⟩
    · dsimp only
      rw [List.length_append]
      simp only [List.length_singleton]
      omega
    · dsimp only
      rw [List.length_append, List.length_append]
      simp [h2]
    · dsimp only
      rw [List.length_append]
      simp only [List.length_singleton]
      omega

theorem cluster_foldl_inv {α β : Type} (lim : ℕ) :
    ∀ (items : List (α × β)) (s : ClusterState α β) (n : ℕ),
      cluster_inv lim n s →
      cluster_inv lim (n + items.length) (items.foldl (cluster_step lim) s)
  | [], s, n, h => by simpa using h
  | it :: its, s, n, h => by
    have h' := cluster_step_inv it h
    have := cluster_foldl_inv lim its (cluster_step lim s it) (n + 1) h'
    simpa [List.foldl_cons, Nat.add_comm, Nat.add_assoc, Nat.add_left_comm] using this

theorem cluster_run_inv {α β : Type} {lim : ℕ} (hlim : 0 < lim)
    (items : List (α × β)) :
    cluster_inv lim items.length (cluster_run lim items) := by
  have h0 : cluster_inv lim 0 (cluster_init (α := α) (β := β)) := by
    refine ⟨hlim, rfl, by simp [cluster_init], rfl, rfl, by simp [cluster_init]⟩
  have := cluster_foldl_inv lim items cluster_init 0 h0
  simpa [cluster_run] using this

/-- C1: the resolution step is claimed to send every in-range global index
`g` to the unique archive `j` with `sum(npz_size_list[:j]) <= g <
sum(npz_size_list[:j+1])` and local offset `g - sum(npz_size_list[:j])`.
The code violates this: with `npz_size_list = [10, 10, 10]`, the global
index 10 is owned by archive 1 at offset 0, but the cascade assigns
`npz_list[2]` at offset 0; and the global index 9 (owned by archive 0 at
offset 9) is assigned by no branch at all, so the loop body runs with
stale `cur_npz_file` / `cur_npz_idx` (a `NameError` on the first
iteration). -/
theorem C1_npz_resolution_bug :
    npz_resolve [10, 10, 10] 10 = some (2, 0) ∧
    spec_npz_resolve [10, 10, 10] 10 = some (1, 0) ∧
    npz_resolve [10, 10, 10] 9 = none ∧
    spec_npz_resolve [10, 10, 10] 9 = some (0, 9) := by
  refine ⟨by decide, by decide, by decide, by decide⟩

/-- C2: every archive written by the batching loop holds exactly `lim`
images in `X_train` and exactly `lim` labels in `y_train`, and successive
archives are numbered consecutively starting from 1; in the script the
limit `save_lim` is 2000. (Stated for every positive limit, hence in
particular for `save_lim`.) -/
theorem C2_batches_full_and_consecutive {α β : Type} (lim : ℕ) (hlim : 0 < lim)
    (items : List (α × β)) :
    save_lim = 2000 ∧
    (cluster_run lim items).outputs.map Prod.fst =
      List.range' 1 (cluster_run lim items).outputs.length ∧
    ∀ o ∈ (cluster_run lim items).outputs,
      o.2.1.length = lim ∧ o.2.2.length = lim := by
  obtain ⟨-, -, -, -, g5, g6⟩ := cluster_run_inv hlim items
  exact ⟨rfl, g5, g6⟩

/-- Witness for C2 at `lim = 2` on five concrete items. -/
theorem C2_batches_full_and_consecutive_witness :
    0 < 2 ∧
    (save_lim = 2000 ∧
     (cluster_run 2 [((0 : ℕ), (0 : ℕ)), (1, 1), (2, 2), (3, 3), (4, 4)]).outputs.map
         Prod.fst =
       List.range' 1
         (cluster_run 2
           [((0 : ℕ), (0 : ℕ)), (1, 1), (2, 2), (3, 3), (4, 4)]).outputs.length ∧
     ∀ o ∈ (cluster_run 2 [((0 : ℕ), (0 : ℕ)), (1, 1), (2, 2), (3, 3), (4, 4)]).outputs,
       o.2.1.length = 2 ∧ o.2.2.length = 2) :=
  ⟨by decide,
   C2_batches_full_and_consecutive 2 (by decide)
     [((0 : ℕ), (0 : ℕ)), (1, 1), (2, 2), (3, 3), (4, 4)]⟩

/-- C3: after the loop has consumed all `N` sampled indices, exactly
`N / lim` archives have been written, and the trailing `N % lim` collected
images and labels are still sitting in `im_arr` / `lbl_arr`; no code after
the loop writes them, so they never reach disk. -/
theorem C3_archive_count_and_remainder {α β : Type} (lim : ℕ) (hlim : 0 < lim)
    (items : List (α × β)) :
    (cluster_run lim items).outputs.length = items.length / lim ∧
    (cluster_run lim items).im_arr.length = items.length % lim ∧
    (cluster_run lim items).lbl_arr.length = items.length % lim := by
  obtain ⟨g1, g2, g3, -, -, -⟩ := cluster_run_inv hlim items
  have hq : items.length / lim = (cluster_run lim items).outputs.length := by
    rw [g3, Nat.mul_add_div hlim, Nat.div_eq_of_lt g1, Nat.add_zero]
  have hr : items.length % lim = (cluster_run lim items).im_arr.length := by
    rw [g3, Nat.mul_add_mod, Nat.mod_eq_of_lt g1]
  exact ⟨hq.symm, hr.symm, by rw [g2]; exact hr.symm⟩

/-- Witness for C3 at `lim = 2` on five concrete items: two archives are
written and one image/label pair stays behind in the buffers. -/
theorem C3_archive_count_and_remainder_witness :
    0 < 2 ∧
    ((cluster_run 2 [((0 : ℕ), (0 : ℕ)), (1, 1), (2, 2), (3, 3), (4, 4)]).outputs.length =
       [((0 : ℕ), (0 : ℕ)), (1, 1), (2, 2), (3, 3), (4, 4)].length / 2 ∧
     (cluster_run 2 [((0 : ℕ), (0 : ℕ)), (1, 1), (2, 2), (3, 3), (4, 4)]).im_arr.length =
       [((0 : ℕ), (0 : ℕ)), (1, 1), (2, 2), (3, 3), (4, 4)].length % 2 ∧
     (cluster_run 2 [((0 : ℕ), (0 : ℕ)), (1, 1), (2, 2), (3, 3), (4, 4)]).lbl_arr.length =
       [((0 : ℕ), (0 : ℕ)), (1, 1), (2, 2), (3, 3), (4, 4)].length % 2) :=
  ⟨by decide,
   C3_archive_count_and_remainder 2 (by decide)
     [((0 : ℕ), (0 : ℕ)), (1, 1), (2, 2), (3, 3), (4, 4)]⟩

/-! ## Part 2: `train.py` -/

/-- Modelled from the spec: `AverageMeter` is imported from `train_utils`,
which is absent from the repository sources. Per the spec's glossary, a
meter is "a running-average accumulator for a scalar metric (loss, top-k
accuracy) over a training/evaluation pass": it keeps the last value, a
weighted sum, a count, and their quotient `avg`; `update(val, n)` adds
`val * n` to `sum` and `n` to `count`. Scalars are modelled as rationals. -/
structure AverageMeter where
  val : ℚ
  sum : ℚ
  count : ℕ
  avg : ℚ

/-- Freshly constructed (reset) meter: everything zero. -/
def AverageMeter.reset : AverageMeter := ⟨0, 0, 0, 0⟩

/-- Meter update with value `v` weighted by `n` samples. -/
def AverageMeter.update (m : AverageMeter) (v : ℚ) (n : ℕ) : AverageMeter :=
  ⟨v, m.sum + v * n, m.count + n, (m.sum + v * n) / ((m.count + n : ℕ) : ℚ)⟩

/-- Embeds the result computation of `accuracy` (train.py lines 542-546):
given the boolean matrix `correct` (row `r` = whether the rank-`r`
prediction matches the target, one column per sample), each requested `k`
contributes `correct[:k].view(-1).float().sum(0) * (100.0 / batch_size)`.
The top-k prediction selection itself (lines 534-536) is framework code
(`torch.topk`); the matrix it produces is taken as the argument. -/
def accuracy_res (correct : List (List Bool)) (batch_size : ℕ)
    (topk : List ℕ) : List ℚ :=
  topk.map (fun k =>
    ((((correct.take k).map (fun row => row.countP id)).sum : ℕ) : ℚ) *
      (100 / (batch_size : ℚ)))

/-- Per-batch data seen by the `validate` loop: the `correct` matrix for
that batch and the batch size `input.size(0)` (= `target.size(0)`). -/
structure ValBatch where
  correct : List (List Bool)
  size : ℕ

/-- Value fed to `top1.update` at line 501:
`accuracy(output, target, topk=(1, 1))[0]`. -/
def batch_acc1 (b : ValBatch) : ℚ :=
  (accuracy_res b.correct b.size [1, 1]).getD 0 0

/-- Value fed to `top5.update` at line 502:
`accuracy(output, target, topk=(1, 1))[1]`. -/
def batch_acc5 (b : ValBatch) : ℚ :=
  (accuracy_res b.correct b.size [1, 1]).getD 1 0

/-- Meter-updating step of the `validate` loop (lines 499-502). -/
def validate_step (ms : AverageMeter × AverageMeter) (b : ValBatch) :
    AverageMeter × AverageMeter :=
  (ms.1.update (batch_acc1 b) b.size, ms.2.update (batch_acc5 b) b.size)

/-- Embeds `validate` (lines 460-525, `track_correct` off): fold the
`top1`/`top5` meter updates over the batches of the loader and return
`(top1.avg, top5.avg)` (line 525). -/
def validate_model (batches : List ValBatch) : ℚ × ℚ :=
  let final := batches.foldl validate_step (AverageMeter.reset, AverageMeter.reset)
  (final.1.avg, final.2.avg)

/-- Optimizers constructible at train.py lines 84-96, with the argument
values the source passes. -/
inductive Optimizer where
  | SGD (lr momentum weight_decay : ℚ)
  | Adam (lr weight_decay : ℚ)
  | LBFGS (lr : ℚ) (history_size : ℕ)
deriving DecidableEq

/-- Embeds Python's `str.lower()` (as in `args.opt.lower()`): lower-case
every character of the string. -/
def py_lower (s : String) : String := ⟨s.data.map Char.toLower⟩

/-- Embeds the optimizer selection chain of `main_worker` (lines 84-98):
dispatch on `args.opt.lower()`; an unrecognized name raises
`ValueError('Incorrect optimizer selection {}'.format(args.opt))`,
modelled as `Except.error` carrying the message (in which case no
optimizer value exists). -/
def select_optimizer (opt : String) (lr momentum weight_decay : ℚ) :
    Except String Optimizer :=
  if py_lower opt = "sgd" then
    .ok (.SGD lr momentum weight_decay)
  else if py_lower opt = "adam" then
    .ok (.Adam lr weight_decay)
  else if py_lower opt = "lbfgs" then
    .ok (.LBFGS lr 20)
  else
    .error ("Incorrect optimizer selection " ++ opt)

/-- Per-parameter defaults table of an argument parser. -/
structure ArgParserModel (V : Type) where
  defaults : String → V

/-- Embeds `parser.set_defaults(**cfg)` (train.py line 639): keys present
in the config dictionary replace the stored defaults. -/
def ArgParserModel.set_defaults {V : Type} (p : ArgParserModel V)
    (cfg : List (String × V)) : ArgParserModel V :=
  ⟨fun k => match cfg.lookup k with
    | some v => v
    | none => p.defaults k⟩

/-- Embeds `parser.parse_args(remaining)` (line 643) at one parameter:
an explicit command-line flag wins, otherwise the stored default. -/
def ArgParserModel.parse_args {V : Type} (p : ArgParserModel V)
    (cli : List (String × V)) : String → V :=
  fun k => match cli.lookup k with
    | some v => v
    | none => p.defaults k

/-- Embeds `_parse_args` (lines 633-644): when `--config` names a JSON
file, its dictionary replaces the parser defaults via `set_defaults`
before the remaining command-line flags are parsed. -/
def parse_args_model {V : Type} (base : ArgParserModel V)
    (config : Option (List (String × V))) (cli : List (String × V)) :
    String → V :=
  let p := match config with
    | some cfg => base.set_defaults cfg
    | none => base
  p.parse_args cli

/-- Checkpoint dictionary as built at train.py lines 367-373; model and
optimizer `state_dict()` values are abstract (`σ`, `τ`). -/
structure Checkpoint (σ τ : Type) where
  epoch : ℕ
  arch : String
  state_dict : σ
  best_acc1 : ℚ
  optimizer : τ

/-- Embeds the dictionary passed to `save_checkpoint` after training
epoch `epoch` (lines 367-373): `'epoch': epoch + 1`, the architecture
name, the model state, the running best accuracy and the optimizer
state. -/
def checkpoint_after {σ τ : Type} (epoch : ℕ) (arch : String) (state_dict : σ)
    (best_acc1 : ℚ) (optimizer : τ) : Checkpoint σ τ :=
  ⟨epoch + 1, arch, state_dict, best_acc1, optimizer⟩

/-- Modelled from the spec: `save_checkpoint` lives in `train_utils`,
absent from the sources; per the glossary a checkpoint is "a serialized
snapshot of model and optimizer state plus epoch metadata, used for
resuming training", so saving and then `torch.load`-ing the file yields
the snapshot unchanged. -/
def torch_load_saved {σ τ : Type} (c : Checkpoint σ τ) : Checkpoint σ τ := c

/-- Mutable quantities assigned by the resume branch. -/
structure ResumeState (σ τ : Type) where
  start_epoch : ℕ
  best_acc1 : ℚ
  model : σ
  optimizer : τ

/-- Embeds the resume branch (train.py lines 115-127) when `args.resume`
names an existing checkpoint file: `args.start_epoch =
checkpoint['epoch']`, `best_acc1 = checkpoint['best_acc1']`,
`model.load_state_dict(checkpoint['state_dict'])`,
`optimizer.load_state_dict(checkpoint['optimizer'])`. -/
def resume_from {σ τ : Type} (checkpoint : Checkpoint σ τ)
    (s : ResumeState σ τ) : ResumeState σ τ :=
  { s with
    start_epoch := checkpoint.epoch
    best_acc1 := checkpoint.best_acc1
    model := checkpoint.state_dict
    optimizer := checkpoint.optimizer }

/-- Fields of `args` consulted by the epoch loop of `main_worker`. -/
structure TrainArgs where
  start_epoch : ℕ
  epochs : ℕ
  arch : String
  schedule_lr : Bool
  max_lr_adjusting_epoch : ℕ
  sub_file : Bool
  mix_cifar : Bool

/-- Oracle for the framework-side quantities the epoch loop consumes at
epoch `e`: the per-batch `correct` matrices the three data loaders give
`validate` after the `train(...)` call of epoch `e`, and the model and
optimizer `state_dict()` at checkpoint time. -/
structure EpochOracle (σ τ : Type) where
  train_batches : ℕ → List ValBatch
  val_batches : ℕ → List ValBatch
  sub_batches : ℕ → List ValBatch
  model_state : ℕ → σ
  opt_state : ℕ → τ

/-- Pair of accuracies stored under one key of a log entry. -/
structure Acc where
  acc1 : ℚ
  acc5 : ℚ

/-- One entry of `train_log` (lines 300-318): the epoch number, the
`'train'` and `'test'` accuracy pairs, and the optional `'subset'` pair. -/
structure EpochLog where
  epoch : ℕ
  train : Acc
  test : Acc
  subset : Option Acc

/-- Log entry assembled at lines 300-318 for one epoch. -/
def epoch_log_at {σ τ : Type} (args : TrainArgs) (o : EpochOracle σ τ)
    (epoch : ℕ) : EpochLog :=
  { epoch := epoch
    train := ⟨(validate_model (o.train_batches epoch)).1,
              (validate_model (o.train_batches epoch)).2⟩
    test := ⟨(validate_model (o.val_batches epoch)).1,
             (validate_model (o.val_batches epoch)).2⟩
    subset :=
      if args.sub_file || args.mix_cifar then
        some ⟨(validate_model (o.sub_batches epoch)).1,
              (validate_model (o.sub_batches epoch)).2⟩
      else
        none }

/-- Observable state threaded through the epoch loop (lines 293-373). -/
structure LoopState (σ τ : Type) where
  train_log : List EpochLog
  log_file : List EpochLog
  checkpoints : List (Checkpoint σ τ)
  train_calls : ℕ
  adjust_epochs : List ℕ
  scheduler_steps : ℕ
  best_acc1 : ℚ

/-- State before the loop: empty `train_log` (line 290), no file content,
no checkpoints, no `train` calls, no lr adjustments, no scheduler steps,
`best_acc1 = 0` (line 38). -/
def loop_init {σ τ : Type} : LoopState σ τ := ⟨[], [], [], 0, [], 0, 0⟩

/-- One iteration of the epoch loop (lines 293-373): conditional
`adjust_learning_rate` (lines 294-295), one `train` call (line 298),
conditional `scheduler.step()` (lines 303-304), the validations and the
log entry (lines 300-318), appending the entry to `train_log` and
rewriting the whole of `log.json` (lines 358-360), updating `best_acc1`
with `max(acc1, best_acc1)` (lines 363-364), and one `save_checkpoint`
call (lines 367-373). -/
def epoch_step {σ τ : Type} (args : TrainArgs) (o : EpochOracle σ τ)
    (st : LoopState σ τ) (epoch : ℕ) : LoopState σ τ :=
  let adjust := decide (epoch < args.max_lr_adjusting_epoch) && !args.schedule_lr
  let log0 := epoch_log_at args o epoch
  let train_log' := st.train_log ++ [log0]
  let best' := max (validate_model (o.val_batches epoch)).1 st.best_acc1
  { train_log := train_log'
    log_file := train_log'
    checkpoints := st.checkpoints ++
      [checkpoint_after epoch args.arch (o.model_state epoch) best'
        (o.opt_state epoch)]
    train_calls := st.train_calls + 1
    adjust_epochs := if adjust then st.adjust_epochs ++ [epoch] else st.adjust_epochs
    scheduler_steps := st.scheduler_steps + (if args.schedule_lr then 1 else 0)
    best_acc1 := best' }

/-- First `k` iterations of the epoch loop, starting at `args.start_epoch`. -/
def run_epochs {σ τ : Type} (args : TrainArgs) (o : EpochOracle σ τ) (k : ℕ) :
    LoopState σ τ :=
  (List.range' args.start_epoch k).foldl (epoch_step args o) loop_init

/-- The full loop `for epoch in range(args.start_epoch, args.epochs)`
of `main_worker` (line 293): `args.epochs - args.start_epoch` iterations. -/
def main_worker_loop {σ τ : Type} (args : TrainArgs) (o : EpochOracle σ τ) :
    LoopState σ τ :=
  run_epochs args o (args.epochs - args.start_epoch)

/-- Line 110-112: the CyclicLR scheduler is created exactly when
`args.schedule_lr` is set. -/
def scheduler_created (args : TrainArgs) : Bool := args.schedule_lr

/-- Running best accuracy after `k` epochs: the fold of
`best_acc1 = max(acc1, best_acc1)` (line 364) over the test-set `acc1`
values of epochs `start, ..., start + k - 1`, from the initial 0. -/
def best_after {σ τ : Type} (o : EpochOracle σ τ) (start k : ℕ) : ℚ :=
  ((List.range' start k).map (fun e => (validate_model (o.val_batches e)).1)).foldl
    (fun b a => max a b) 0

theorem best_after_succ {σ τ : Type} (o : EpochOracle σ τ) (start k : ℕ) :
    best_after o start (k + 1) =
      max (validate_model (o.val_batches (start + k))).1 (best_after o start k) := by
  unfold best_after
  rw [List.range'_concat, List.map_append, List.foldl_append]
  simp

theorem run_epochs_succ {σ τ : Type} (args : TrainArgs) (o : EpochOracle σ τ)
    (k : ℕ) :
    run_epochs args o (k + 1) =
      epoch_step args o (run_epochs args o k) (args.start_epoch + k) := by
  unfold run_epochs
  rw [List.range'_concat, List.foldl_append]
  simp

/-- Shape of the loop state after `k` iterations: all components at once. -/
theorem run_epochs_state {σ τ : Type} (args : TrainArgs) (o : EpochOracle σ τ) :
    ∀ k : ℕ,
      (run_epochs args o k).train_log =
        (List.range' args.start_epoch k).map (epoch_log_at args o) ∧
      (run_epochs args o k).log_file = (run_epochs args o k).train_log ∧
      (run_epochs args o k).train_calls = k ∧
      (run_epochs args o k).checkpoints =
        (List.range k).map (fun i =>
          checkpoint_after (args.start_epoch + i) args.arch
            (o.model_state (args.start_epoch + i))
            (best_after o args.start_epoch (i + 1))
            (o.opt_state (args.start_epoch + i))) ∧
      (run_epochs args o k).adjust_epochs =
        (if args.schedule_lr then [] else
          (List.range' args.start_epoch k).filter
            (fun e => decide (e < args.max_lr_adjusting_epoch))) ∧
      (run_epochs args o k).scheduler_steps = (if args.schedule_lr then k else 0) ∧
      (run_epochs args o k).best_acc1 = best_after o args.start_epoch k
  | 0 => by
    constructor
    · rfl
    constructor
    · rfl
    constructor
    · rfl
    constructor
    · rfl
    constructor
    · cases args.schedule_lr <;> rfl
    constructor
    · cases args.schedule_lr <;> rfl
    · rfl
  | k + 1 => by
    obtain ⟨ih1, ih2, ih3, ih4, ih5, ih6, ih7⟩ := run_epochs_state args o k
    rw [run_epochs_succ]
    unfold epoch_step
    refine ⟨?_, rfl, ?_, ?_, ?_, ?_, ?_⟩
    · dsimp only
      rw [ih1, List.range'_concat, List.map_append]
      simp
    · dsimp only
      rw [ih3]
    · dsimp only
      rw [ih4, ih7, List.range_succ, List.map_append]
      simp only [List.map_cons, List.map_nil]
      rw [← best_after_succ]
    · dsimp only
      rw [ih5]
      cases hs : args.schedule_lr
      · simp only [Bool.not_false, Bool.and_true, if_neg, Bool.false_eq_true,
          not_false_iff]
        rw [List.range'_concat, List.filter_append]
        simp only [List.filter_cons, List.filter_nil]
        by_cases hlt : args.start_epoch + k < args.max_lr_adjusting_epoch <;>
          simp [hlt]
      · simp
    · dsimp only
      rw [ih6]
      cases args.schedule_lr <;> simp
    · dsimp only
      rw [ih7, ← best_after_succ]

/-- C4: the epoch loop runs once per epoch in
`[args.start_epoch, args.epochs)`; each iteration makes one `train` call,
evaluates on the train loader and on the validation loader, appends
exactly one entry (holding that epoch number and the train/test
`acc1`/`acc5` pairs) to `train_log`, rewrites the whole `train_log` to
`log.json`, and calls `save_checkpoint` exactly once. Stated for every
iteration count `k`, and tied to the actual bound
`args.epochs - args.start_epoch` by the last conjunct. -/
theorem C4_epoch_loop_shape {σ τ : Type} (args : TrainArgs)
    (o : EpochOracle σ τ) (k : ℕ) :
    (run_epochs args o k).train_log =
      (List.range' args.start_epoch k).map (epoch_log_at args o) ∧
    (run_epochs args o k).train_log.map EpochLog.epoch =
      List.range' args.start_epoch k ∧
    (run_epochs args o k).train_log.map EpochLog.train =
      (List.range' args.start_epoch k).map (fun e =>
        ⟨(validate_model (o.train_batches e)).1,
         (validate_model (o.train_batches e)).2⟩) ∧
    (run_epochs args o k).train_log.map EpochLog.test =
      (List.range' args.start_epoch k).map (fun e =>
        ⟨(validate_model (o.val_batches e)).1,
         (validate_model (o.val_batches e)).2⟩) ∧
    (run_epochs args o k).log_file = (run_epochs args o k).train_log ∧
    (run_epochs args o k).train_calls = k ∧
    (run_epochs args o k).checkpoints.length = k ∧
    main_worker_loop args o = run_epochs args o (args.epochs - args.start_epoch) := by
  obtain ⟨h1, h2, h3, h4, -, -, -⟩ := run_epochs_state args o k
  refine ⟨h1, ?_, ?_, ?_, h2, h3, ?_, rfl⟩
  · rw [h1, List.map_map]
    have : EpochLog.epoch ∘ epoch_log_at args o = id := rfl
    rw [this, List.map_id]
  · rw [h1, List.map_map]
    rfl
  · rw [h1, List.map_map]
    rfl
  · rw [h4, List.length_map, List.length_range]

/-- C5: the checkpoint dictionary built after training epoch `e` records
epoch metadata `e + 1` together with the model state, optimizer state and
the running-maximum `best_acc1`; resuming from a saved checkpoint restores
`args.start_epoch`, `best_acc1`, the model state and the optimizer state
exactly, so the resumed loop continues from the recorded epoch. The last
conjunct checks the in-loop checkpoints: the one saved after epoch
`start + i` carries the running maximum of the test `acc1` values up to
and including that epoch. -/
theorem C5_checkpoint_roundtrip {σ τ : Type} (e : ℕ) (a : String) (m : σ)
    (b : ℚ) (opt : τ) (s : ResumeState σ τ) (args : TrainArgs)
    (o : EpochOracle σ τ) (k : ℕ) :
    (checkpoint_after e a m b opt).epoch = e + 1 ∧
    resume_from (torch_load_saved (checkpoint_after e a m b opt)) s =
      ⟨e + 1, b, m, opt⟩ ∧
    (resume_from (torch_load_saved (checkpoint_after e a m b opt)) s).start_epoch =
      (checkpoint_after e a m b opt).epoch ∧
    (run_epochs args o k).checkpoints =
      (List.range k).map (fun i =>
        checkpoint_after (args.start_epoch + i) args.arch
          (o.model_state (args.start_epoch + i))
          (best_after o args.start_epoch (i + 1))
          (o.opt_state (args.start_epoch + i))) := by
  obtain ⟨-, -, -, h4, -, -, -⟩ := run_epochs_state args o k
  exact ⟨rfl, rfl, rfl, h4⟩

/-- C8: the learning-rate schedule is optional and exclusive. With
`args.schedule_lr` set, the scheduler is created and stepped once per
epoch and `adjust_learning_rate` is never called; without it, no
scheduler is created or stepped and `adjust_learning_rate` runs exactly
at the epochs of the range that lie below `args.max_lr_adjusting_epoch`. -/
theorem C8_lr_schedule_exclusive {σ τ : Type} (args : TrainArgs)
    (o : EpochOracle σ τ) (k : ℕ) :
    scheduler_created args = args.schedule_lr ∧
    (run_epochs args o k).scheduler_steps =
      (if args.schedule_lr then k else 0) ∧
    (run_epochs args o k).adjust_epochs =
      (if args.schedule_lr then [] else
        (List.range' args.start_epoch k).filter
          (fun e => decide (e < args.max_lr_adjusting_epoch))) := by
  obtain ⟨-, -, -, -, h5, h6, -⟩ := run_epochs_state args o k
  exact ⟨rfl, h6, h5⟩

/-- Weighted total `sum(v_i * n_i)` of a sequence of meter updates. -/
def updates_total (updates : List (ℚ × ℕ)) : ℚ :=
  (updates.map (fun p => p.1 * (p.2 : ℚ))).sum

/-- Sample total `sum(n_i)` of a sequence of meter updates. -/
def updates_count (updates : List (ℚ × ℕ)) : ℕ :=
  (updates.map Prod.snd).sum

theorem meter_fold_totals :
    ∀ (updates : List (ℚ × ℕ)) (m : AverageMeter),
      (updates.foldl (fun m p => m.update p.1 p.2) m).sum =
        m.sum + updates_total updates ∧
      (updates.foldl (fun m p => m.update p.1 p.2) m).count =
        m.count + updates_count updates
  | [], m => by simp [updates_total, updates_count]
  | p :: ps, m => by
    obtain ⟨hs, hc⟩ := meter_fold_totals ps (m.update p.1 p.2)
    rw [List.foldl_cons]
    constructor
    · rw [hs]
      show m.sum + p.1 * (p.2 : ℚ) + _ = _
      simp only [updates_total, List.map_cons, List.sum_cons]
      ring
    · rw [hc]
      show m.count + p.2 + _ = _
      simp only [updates_count, List.map_cons, List.sum_cons]
      omega

theorem meter_fold_avg :
    ∀ (updates : List (ℚ × ℕ)) (m : AverageMeter),
      m.avg = m.sum / ((m.count : ℕ) : ℚ) →
      (updates.foldl (fun m p => m.update p.1 p.2) m).avg =
        (updates.foldl (fun m p => m.update p.1 p.2) m).sum /
          (((updates.foldl (fun m p => m.update p.1 p.2) m).count : ℕ) : ℚ)
  | [], _, h => h
  | p :: ps, m, _ => meter_fold_avg ps (m.update p.1 p.2) rfl

theorem validate_fold_fst :
    ∀ (batches : List ValBatch) (ms : AverageMeter × AverageMeter),
      (batches.foldl validate_step ms).1 =
        (batches.map (fun b => (batch_acc1 b, b.size))).foldl
          (fun m p => m.update p.1 p.2) ms.1
  | [], _ => rfl
  | b :: bs, ms => by
    rw [List.foldl_cons, List.map_cons, List.foldl_cons]
    exact validate_fold_fst bs _

theorem validate_fold_snd :
    ∀ (batches : List ValBatch) (ms : AverageMeter × AverageMeter),
      (batches.foldl validate_step ms).2 =
        (batches.map (fun b => (batch_acc5 b, b.size))).foldl
          (fun m p => m.update p.1 p.2) ms.2
  | [], _ => rfl
  | b :: bs, ms => by
    rw [List.foldl_cons, List.map_cons, List.foldl_cons]
    exact validate_fold_snd bs _

theorem meter_run_avg (updates : List (ℚ × ℕ)) :
    (updates.foldl (fun m p => m.update p.1 p.2) AverageMeter.reset).avg =
      updates_total updates / ((updates_count updates : ℕ) : ℚ) := by
  have h := meter_fold_avg updates AverageMeter.reset (by norm_num [AverageMeter.reset])
  obtain ⟨hs, hc⟩ := meter_fold_totals updates AverageMeter.reset
  rw [h, hs, hc]
  show (0 + updates_total updates) / _ = _
  rw [zero_add]
  norm_num [AverageMeter.reset]

/-- C7: a meter's `avg` after any sequence of weighted updates is the
weighted average `sum(v_i * n_i) / sum(n_i)`; consequently each component
of the pair `(top1.avg, top5.avg)` returned by `validate` is the
per-sample-weighted average of its per-batch accuracy values over the
whole evaluation pass. -/
theorem C7_meter_weighted_average (updates : List (ℚ × ℕ))
    (batches : List ValBatch) :
    (updates.foldl (fun m p => m.update p.1 p.2) AverageMeter.reset).avg =
      updates_total updates / ((updates_count updates : ℕ) : ℚ) ∧
    (validate_model batches).1 =
      (batches.map (fun b => batch_acc1 b * (b.size : ℚ))).sum /
        (((batches.map ValBatch.size).sum : ℕ) : ℚ) ∧
    (validate_model batches).2 =
      (batches.map (fun b => batch_acc5 b * (b.size : ℚ))).sum /
        (((batches.map ValBatch.size).sum : ℕ) : ℚ) := by
  refine ⟨meter_run_avg updates, ?_, ?_⟩
  · show (batches.foldl validate_step (AverageMeter.reset, AverageMeter.reset)).1.avg = _
    rw [validate_fold_fst, meter_run_avg]
    simp [updates_total, updates_count, List.map_map, Function.comp_def]
  · show (batches.foldl validate_step (AverageMeter.reset, AverageMeter.reset)).2.avg = _
    rw [validate_fold_snd, meter_run_avg]
    simp [updates_total, updates_count, List.map_map, Function.comp_def]

theorem batch_acc5_eq_batch_acc1 (b : ValBatch) : batch_acc5 b = batch_acc1 b := rfl

theorem validate_fold_components_eq :
    ∀ (batches : List ValBatch) (m : AverageMeter),
      (batches.foldl validate_step (m, m)).1 =
        (batches.foldl validate_step (m, m)).2
  | [], _ => rfl
  | b :: bs, m => by
    rw [List.foldl_cons]
    have hstep : validate_step (m, m) b =
        (m.update (batch_acc1 b) b.size, m.update (batch_acc1 b) b.size) := rfl
    rw [hstep]
    exact validate_fold_components_eq bs _

theorem validate_model_components_eq (batches : List ValBatch) :
    (validate_model batches).2 = (validate_model batches).1 := by
  show (batches.foldl validate_step (AverageMeter.reset, AverageMeter.reset)).2.avg = _
  rw [← validate_fold_components_eq batches AverageMeter.reset]
  rfl

/-- C9: `validate` calls `accuracy` with `topk=(1, 1)`, so the second
returned value equals the first on every batch, the `top1` and `top5`
meters receive identical update streams, and in every `'train'`,
`'test'` and `'subset'` log entry the value recorded under `acc5`
equals the top-1 accuracy recorded under `acc1`. -/
theorem C9_logged_acc5_is_acc1 {σ τ : Type} (c : List (List Bool)) (n : ℕ)
    (batches : List ValBatch) (args : TrainArgs) (o : EpochOracle σ τ)
    (epoch : ℕ) :
    accuracy_res c n [1, 1] = [batch_acc1 ⟨c, n⟩, batch_acc1 ⟨c, n⟩] ∧
    (validate_model batches).2 = (validate_model batches).1 ∧
    (epoch_log_at args o epoch).train.acc5 =
      (epoch_log_at args o epoch).train.acc1 ∧
    (epoch_log_at args o epoch).test.acc5 =
      (epoch_log_at args o epoch).test.acc1 ∧
    (epoch_log_at args o epoch).subset.map Acc.acc5 =
      (epoch_log_at args o epoch).subset.map Acc.acc1 := by
  refine ⟨rfl, validate_model_components_eq batches, ?_, ?_, ?_⟩
  · exact validate_model_components_eq (o.train_batches epoch)
  · exact validate_model_components_eq (o.val_batches epoch)
  · unfold epoch_log_at
    by_cases h : args.sub_file || args.mix_cifar
    · simp only [h, if_pos]
      simp [validate_model_components_eq (o.sub_batches epoch)]
    · simp only [h, if_neg]
      rfl

/-- C10: `main_worker` raises `ValueError` exactly when `args.opt`
lowercased is none of `sgd`, `adam`, `lbfgs`; in the error case no
optimizer value exists, and each accepted name constructs the matching
optimizer with `args.lr`. -/
theorem C10_optimizer_selection (opt : String) (lr momentum weight_decay : ℚ) :
    ((∃ v, select_optimizer opt lr momentum weight_decay = .ok v) ↔
      (py_lower opt = "sgd" ∨ py_lower opt = "adam" ∨ py_lower opt = "lbfgs")) ∧
    (py_lower opt = "sgd" →
      select_optimizer opt lr momentum weight_decay =
        .ok (.SGD lr momentum weight_decay)) ∧
    (py_lower opt = "adam" →
      select_optimizer opt lr momentum weight_decay =
        .ok (.Adam lr weight_decay)) ∧
    (py_lower opt = "lbfgs" →
      select_optimizer opt lr momentum weight_decay = .ok (.LBFGS lr 20)) ∧
    (¬(py_lower opt = "sgd" ∨ py_lower opt = "adam" ∨ py_lower opt = "lbfgs") →
      select_optimizer opt lr momentum weight_decay =
        .error ("Incorrect optimizer selection " ++ opt)) := by
  unfold select_optimizer
  by_cases h1 : py_lower opt = "sgd"
  · simp [h1]
  · by_cases h2 : py_lower opt = "adam"
    · simp [h1, h2]
    · by_cases h3 : py_lower opt = "lbfgs"
      · simp [h1, h2, h3]
      · simp [h1, h2, h3]

/-- Witness for C10 on the four kinds of input: the three accepted
optimizer names (in mixed case, exercising `.lower()`) and a rejected
one. -/
theorem C10_optimizer_selection_witness :
    (py_lower "SGD" = "sgd" ∧
     select_optimizer "SGD" 1 2 3 = .ok (.SGD 1 2 3)) ∧
    (py_lower "Adam" = "adam" ∧
     select_optimizer "Adam" 1 2 3 = .ok (.Adam 1 3)) ∧
    (py_lower "lbfgs" = "lbfgs" ∧
     select_optimizer "lbfgs" 1 2 3 = .ok (.LBFGS 1 20)) ∧
    (¬(py_lower "rmsprop" = "sgd" ∨ py_lower "rmsprop" = "adam" ∨
        py_lower "rmsprop" = "lbfgs") ∧
     select_optimizer "rmsprop" 1 2 3 =
       .error ("Incorrect optimizer selection " ++ "rmsprop")) :=
  ⟨⟨by decide, (C10_optimizer_selection "SGD" 1 2 3).2.1 (by decide)⟩,
   ⟨by decide, (C10_optimizer_selection "Adam" 1 2 3).2.2.1 (by decide)⟩,
   ⟨by decide, (C10_optimizer_selection "lbfgs" 1 2 3).2.2.2.1 (by decide)⟩,
   ⟨by decide, (C10_optimizer_selection "rmsprop" 1 2 3).2.2.2.2 (by decide)⟩⟩

/-- C6: configuration precedence of `_parse_args`. With a config file,
`set_defaults` makes its entries the new defaults and an explicit
command-line flag still wins, so the effective value is the CLI flag if
present, else the config entry if present, else the built-in default;
without a config file the CLI flag wins over the built-in default, and
with neither the built-in defaults come through. (The claim's final part,
that the entry point parses successfully, fails on the code: see the
RESULTS entry; the theorem records the precedence the source's
`_parse_args` logic implements.) -/
theorem C6_config_precedence {V : Type} (base : ArgParserModel V)
    (cfg cli : List (String × V)) (k : String) :
    parse_args_model base (some cfg) cli k =
      (cli.lookup k).getD ((cfg.lookup k).getD (base.defaults k)) ∧
    parse_args_model base none cli k =
      (cli.lookup k).getD (base.defaults k) ∧
    parse_args_model base none [] k = base.defaults k := by
  refine ⟨?_, ?_, rfl⟩
  · unfold parse_args_model ArgParserModel.parse_args ArgParserModel.set_defaults
    cases hcli : cli.lookup k <;> cases hcfg : cfg.lookup k <;>
      simp [hcli, hcfg]
  · unfold parse_args_model ArgParserModel.parse_args
    cases hcli : cli.lookup k <;> simp [hcli]

end ImagenetCandidate
